import Mathlib

/-!
Shallow embedding of the MKS-DLC32 I2C mode/command firmware.

Source files:
- `src/Firmware/Grbl_Esp32/src/mks/MKS_I2C_Slave.cpp` — the master-side
  relay.  The file contains several revisions; the first (referred to as
  rev 1 below) carries the throttled-report state machine and prefix mode
  matching, the second (rev 2) carries exact mode matching and the gcode
  forwarding branch.
- `src/Firmware/Arduino_I2C_Slave/Arduino_I2C_Slave.ino` — the slave-side
  mode sensor and stepper position controller (second revision, the one
  with the stepper).
- `src/unnamed/part_000` — the header revision declaring
  `JSON_REPORT_INTERVAL`/`JSON_REPORT_DURATION`.

The JSON library (ArduinoJson) is an external collaborator treated as an
opaque deserialize contract: a parsed document is modelled as a list of
key/value pairs (`ParseResult.ok`) or a deserialization error
(`ParseResult.err`), and pipeline functions receive the raw payload and
its parse result as separate inputs.  `millis()` time is modelled as a
`Nat`; in all modelled runs time is monotone and at least every stored
timestamp, so `Nat` subtraction agrees with the source's `uint32_t`
subtraction.
-/

/-- Machine operating modes, `MODE_NONE`/`MODE_SPINDLE`/`MODE_LASER`/
`MODE_DRAWING` from the headers. -/
inductive MachineMode
  | none
  | spindle
  | laser
  | drawing
deriving DecidableEq, Repr

/-- A JSON value as far as this firmware inspects one: a string, or
anything else (for which ArduinoJson's `const char*` extraction yields
null). -/
inductive JsonValue
  | str (s : String)
  | nonString
deriving DecidableEq, Repr

/-- A deserialized single-level JSON object: its key/value pairs. -/
abbrev JsonDoc := List (String × JsonValue)

/-- Outcome of the opaque `deserializeJson` contract. -/
inductive ParseResult
  | err
  | ok (doc : JsonDoc)
deriving DecidableEq, Repr

/-- `doc.containsKey(k)`. -/
def containsKey (doc : JsonDoc) (k : String) : Bool :=
  doc.any (fun p => p.1 == k)

/-- `const char* v = doc[k]`: the string value at `k`, or `none` when the
key is absent or its value is not a string (null pointer). -/
def getString (doc : JsonDoc) (k : String) : Option String :=
  match doc.find? (fun p => p.1 == k) with
  | some (_, JsonValue.str s) => some s
  | _ => Option.none

/-- `strncpy(dst, src, n)` into a buffer that is then null-terminated:
the first `n` characters of `src`. -/
def strncpy_take (n : Nat) (s : String) : String :=
  String.mk (s.toList.take n)

/-- `strncmp(m, lit, strlen(lit)) == 0`: the literal is a prefix of `m`. -/
def strncmp_matches (lit m : String) : Bool :=
  List.isPrefixOf lit.toList m.toList

/-- Messages emitted to the report sink (serial console) by the relay. -/
inductive Report
  | jsonFwd (payload : String)
  | modeMsg (m : MachineMode)
  | parseErr
  | gcodeErr
  | sendInvalid
  | sentInfo (payload : String)
  | jsonSent (payload : String)
  | sendFail (status : Nat)
deriving DecidableEq, Repr

/-- `JSON_REPORT_INTERVAL` from `src/unnamed/part_000`. -/
def JSON_REPORT_INTERVAL : Nat := 500

/-- `JSON_REPORT_DURATION` from `src/unnamed/part_000`. -/
def JSON_REPORT_DURATION : Nat := 5000

/-- The rev-1 relay's mutable globals: `mks_machine_mode`,
`last_json_report_time`, `mode_change_time`, `throttled_reporting_active`,
`last_json_content`. -/
structure RelayState where
  mks_machine_mode : MachineMode
  last_json_report_time : Nat
  mode_change_time : Nat
  throttled_reporting_active : Bool
  last_json_content : String
deriving DecidableEq, Repr

/-- State after `mks_i2c_slave_init`: mode `MODE_NONE`, timers zero,
throttling inactive, empty stored payload. -/
def relayInit : RelayState :=
  { mks_machine_mode := MachineMode.none
    last_json_report_time := 0
    mode_change_time := 0
    throttled_reporting_active := false
    last_json_content := "" }

/-- Rev-1 mode-name recognition (`MKS_I2C_Slave.cpp` lines 142-153):
`strncmp` against each recognized name for its full length, i.e. prefix
match; any other string leaves the initial `new_mode = MODE_NONE`. -/
def parseModeName (m : String) : MachineMode :=
  if strncmp_matches "spindle" m then MachineMode.spindle
  else if strncmp_matches "laser" m then MachineMode.laser
  else if strncmp_matches "drawing" m then MachineMode.drawing
  else if strncmp_matches "none" m then MachineMode.none
  else MachineMode.none

/-- Rev-1 `mks_i2c_process_json` (`MKS_I2C_Slave.cpp` lines 125-168):
on a parse error report it and change nothing; on a document with a
string-valued `mode` key compute the new mode by prefix match and, only
when it differs from the previous mode, store it, report the change and
deactivate throttled reporting. -/
def mks_i2c_process_json (parsed : ParseResult) (s : RelayState) :
    RelayState × List Report :=
  match parsed with
  | ParseResult.err => (s, [Report.parseErr])
  | ParseResult.ok doc =>
    if containsKey doc "mode" then
      match getString doc "mode" with
      | some m =>
        let previous_mode := s.mks_machine_mode
        let new_mode := parseModeName m
        if previous_mode ≠ new_mode then
          ({ s with mks_machine_mode := new_mode
                    throttled_reporting_active := false },
           [Report.modeMsg new_mode])
        else (s, [])
      | Option.none => (s, [])
    else (s, [])

/-- The throttle step at the top of each rev-1 `mks_i2c_poll_task`
iteration (lines 43-52): while active and within `JSON_REPORT_DURATION`
of the window start, re-emit the stored payload whenever at least
`JSON_REPORT_INTERVAL` has passed since the last emission; past the
duration, deactivate. -/
def throttleTick (now : Nat) (s : RelayState) : RelayState × List Report :=
  if s.throttled_reporting_active then
    if now - s.mode_change_time ≤ JSON_REPORT_DURATION then
      if JSON_REPORT_INTERVAL ≤ now - s.last_json_report_time then
        ({ s with last_json_report_time := now },
         [Report.jsonFwd s.last_json_content])
      else (s, [])
    else ({ s with throttled_reporting_active := false }, [])
  else (s, [])

/-- The shared ingest body of both rev-1 channels (lines 60-74 and
88-105): store the payload (truncated to 255) as `last_json_content`;
if no throttle window is active, forward the payload once immediately
and open a window anchored at `now`; in all cases parse-and-apply. -/
def ingestJson (now : Nat) (payload : String) (parsed : ParseResult)
    (s : RelayState) : RelayState × List Report :=
  let s1 := { s with last_json_content := strncpy_take 255 payload }
  let (s2, r1) :=
    if s1.throttled_reporting_active then (s1, ([] : List Report))
    else ({ s1 with mode_change_time := now
                    last_json_report_time := now
                    throttled_reporting_active := true },
          [Report.jsonFwd payload])
  let (s3, r2) := mks_i2c_process_json parsed s2
  (s3, r1 ++ r2)

/-- Per-iteration input of the poll task: nothing new, a payload read
from the I2C bus, or a line read from the local serial channel.  The
parse result accompanies the raw text per the opaque-parser contract. -/
inductive PollInput
  | noInput
  | busJson (payload : String) (parsed : ParseResult)
  | serialLine (line : String) (parsed : ParseResult)
deriving DecidableEq, Repr

/-- `i > 0 && i2c_buffer[0] == '{'`. -/
def startsWithBrace (s : String) : Bool :=
  match s.toList with
  | c :: _ => c == '\x7b'
  | [] => false

/-- One iteration of the rev-1 `mks_i2c_poll_task` loop (lines 40-116):
first the throttle step, then channel ingest.  The serial channel
requires `len > 3` and the `J:` marker and strips it; the bus channel
requires a leading brace.  Reads are capped at 254 bytes
(`sizeof(i2c_buffer) - 2`). -/
def mks_i2c_poll_iter (now : Nat) (input : PollInput) (s : RelayState) :
    RelayState × List Report :=
  let (s1, r1) := throttleTick now s
  match input with
  | PollInput.noInput => (s1, r1)
  | PollInput.serialLine line parsed =>
    let buf := strncpy_take 254 line
    if buf.length > 3 ∧ buf.toList.take 2 = ['J', ':'] then
      let (s2, r2) := ingestJson now (String.mk (buf.toList.drop 2)) parsed s1
      (s2, r1 ++ r2)
    else (s1, r1)
  | PollInput.busJson payload parsed =>
    let buf := strncpy_take 254 payload
    if startsWithBrace buf then
      let (s2, r2) := ingestJson now buf parsed s1
      (s2, r1 ++ r2)
    else (s1, r1)

/-- Run the poll task over a list of (time, input) iterations, collecting
time-stamped reports. -/
def runPoll : RelayState → List (Nat × PollInput) →
    RelayState × List (Nat × Report)
  | s, [] => (s, [])
  | s, (t, inp) :: rest =>
    let (s1, rs) := mks_i2c_poll_iter t inp s
    let (s2, rest') := runPoll s1 rest
    (s2, rs.map (fun r => (t, r)) ++ rest')

/-- The claim-C2 scenario: one `{}` bus payload (a well-formed object
that carries no recognized key, so it does not disturb the applied Mode)
arrives at time 0 with no throttle window active, and the task then keeps
polling on its nominal 100 ms period with nothing further incoming,
through time 6000. -/
def c2Inputs : List (Nat × PollInput) :=
  (List.range 61).map (fun k =>
    (k * 100,
     if k = 0 then PollInput.busJson "\x7b\x7d" (ParseResult.ok []) else PollInput.noInput))

/-- Final state and time-stamped report log of the C2 scenario. -/
def c2Run : RelayState × List (Nat × Report) := runPoll relayInit c2Inputs

/-- The times at which a `[JSON:...]` payload emission reached the report
sink. -/
def jsonFwdTimes (out : List (Nat × Report)) : List Nat :=
  (out.filter (fun p => match p.2 with | Report.jsonFwd _ => true | _ => false)).map Prod.fst

/-- What the Wire transport reported for one master-to-slave write:
the byte count returned by `Wire.write` and the status returned by
`Wire.endTransmission`. -/
structure WireResult where
  bytesWritten : Nat
  status : Nat
deriving DecidableEq, Repr

/-- Rev-1 `send_json_to_arduino` (`MKS_I2C_Slave.cpp` lines 171-201):
reject a null, empty or longer-than-32-byte payload with an error
report; otherwise write it and report success exactly when the
transport status is 0 and every byte was written.  The payload is
`Option String` because the source checks the pointer for null. -/
def send_json_to_arduino (json : Option String) (wire : WireResult) :
    Bool × List Report :=
  match json with
  | Option.none => (false, [Report.sendInvalid])
  | some j =>
    if j.length = 0 ∨ j.length > 32 then (false, [Report.sendInvalid])
    else if wire.status = 0 ∧ wire.bytesWritten = j.length then
      (true, [Report.sentInfo j, Report.jsonSent j])
    else (false, [Report.sendFail wire.status])

/-- Status returned by the external G-code command executor
(`gc_execute_line`), opaque beyond Ok versus a numbered error. -/
inductive GcStatus
  | ok
  | fail (code : Nat)
deriving DecidableEq, Repr

/-- Rev-2 `mks_i2c_process_json` (`MKS_I2C_Slave.cpp` lines 307-361):
exact (`strcmp`) mode matching with an unconditional mode report when a
string-valued `mode` key is present, then the gcode branch: copy the
text into a 256-byte buffer with `strncpy(gc_line, gcode, 255)` followed
by `gc_line[255] = 0` (i.e. keep the first 255 characters), hand it to
the executor, and report any non-Ok status.  Returns the new mode, the
line forwarded to the executor (if any), and the reports. -/
def mks_i2c_process_json_v2 (parsed : ParseResult)
    (exec : String → GcStatus) (mode0 : MachineMode) :
    MachineMode × Option String × List Report :=
  match parsed with
  | ParseResult.err => (mode0, Option.none, [Report.parseErr])
  | ParseResult.ok doc =>
    let modeStep :=
      if containsKey doc "mode" then
        match getString doc "mode" with
        | some m =>
          let mode1 :=
            if m == "spindle" then MachineMode.spindle
            else if m == "laser" then MachineMode.laser
            else if m == "drawing" then MachineMode.drawing
            else if m == "none" then MachineMode.none
            else mode0
          (mode1, [Report.modeMsg mode1])
        | Option.none => (mode0, ([] : List Report))
      else (mode0, ([] : List Report))
    let gcodeStep :=
      if containsKey doc "gcode" then
        match getString doc "gcode" with
        | some g =>
          let gc_line := strncpy_take 255 g
          let status_code := exec gc_line
          (some gc_line,
           if status_code ≠ GcStatus.ok then [Report.gcodeErr] else ([] : List Report))
        | Option.none => (Option.none, ([] : List Report))
      else (Option.none, ([] : List Report))
    (modeStep.1, gcodeStep.1, modeStep.2 ++ gcodeStep.2)

/-- `checkModePins`'s sampled value (`Arduino_I2C_Slave.ino` lines
444-454): the three mode pins checked in priority order
Spindle > Laser > Drawing, defaulting to None. -/
def sampleMode (spindlePin laserPin drawingPin : Bool) : MachineMode :=
  if spindlePin then MachineMode.spindle
  else if laserPin then MachineMode.laser
  else if drawingPin then MachineMode.drawing
  else MachineMode.none

/-- Slave-side sensor state: `currentMode`, the `modeChanged` flag, and
the exposed `jsonBuffer` served to the master on request. -/
structure SensorState where
  currentMode : MachineMode
  modeChanged : Bool
  jsonBuffer : String
deriving DecidableEq, Repr

/-- `checkModePins` (`Arduino_I2C_Slave.ino` lines 443-464): sample the
pins and, only when the sampled mode differs from `currentMode`, store
it and raise `modeChanged`. -/
def checkModePins (sp la dr : Bool) (s : SensorState) : SensorState :=
  let newMode := sampleMode sp la dr
  if newMode ≠ s.currentMode then
    { s with currentMode := newMode, modeChanged := true }
  else s

/-- `getModeString` (`Arduino_I2C_Slave.ino` lines 466-478). -/
def getModeString : MachineMode → String
  | MachineMode.spindle => "spindle"
  | MachineMode.laser => "laser"
  | MachineMode.drawing => "drawing"
  | MachineMode.none => "none"

/-- `updateJsonBuffer` (`Arduino_I2C_Slave.ino` lines 480-490): the
serialized `{"mode":<name>}` document exposed over I2C. -/
def updateJsonBuffer (m : MachineMode) : String :=
  "\x7b\"mode\":\"" ++ getModeString m ++ "\"\x7d"

/-- One pass of the sensor part of `loop()` (`Arduino_I2C_Slave.ino`
lines 286-302): `checkModePins`, then, if the mode changed, re-encode
the exposed buffer and clear the flag. -/
def sensorLoopTick (sp la dr : Bool) (s : SensorState) : SensorState :=
  let s1 := checkModePins sp la dr s
  if s1.modeChanged then
    { s1 with jsonBuffer := updateJsonBuffer s1.currentMode, modeChanged := false }
  else s1

/-- Physical stepper actions issued by `moveToColor`, in order: the
ENA enable/disable edges, the DIR setting, and each STEP pulse.
(The status-LED writes and serial prints are external collaborators and
are represented by the returned `MoveReport` instead.) -/
inductive Act
  | enaEnable
  | setDir (forward : Bool)
  | stepPulse
  | enaDisable
deriving DecidableEq, Repr

/-- The serial report `moveToColor` makes about its outcome. -/
inductive MoveReport
  | unknownColor
  | alreadyAt
  | moved (fromPos toPos : Int)
deriving DecidableEq, Repr

/-- `colorPositions` (`Arduino_I2C_Slave.ino` lines 225-230): the fixed
name-to-absolute-step table. -/
def colorPositions : List (String × Int) :=
  [("cyan", 0), ("magenta", 200), ("yellow", 400), ("black", 600)]

/-- The lookup loop of `moveToColor` (lines 377-384): first `strcmp`
match wins; the sentinel -1 means not found. -/
def findColorPosition (color : String) : Int :=
  match colorPositions.find? (fun p => p.1 == color) with
  | some p => p.2
  | Option.none => -1

/-- `moveToColor` (`Arduino_I2C_Slave.ino` lines 374-441): unknown name
reports and changes nothing; zero delta reports "already at"; otherwise
enable the driver, set DIR from the sign of the delta, pulse STEP
`abs(delta)` times, record the new position and disable the driver.
Returns the new `currentPosition`, the action trace, and the report. -/
def moveToColor (color : String) (currentPosition : Int) :
    Int × List Act × MoveReport :=
  let targetPosition := findColorPosition color
  if targetPosition = -1 then
    (currentPosition, [], MoveReport.unknownColor)
  else
    let stepsToMove := targetPosition - currentPosition
    if stepsToMove ≠ 0 then
      (targetPosition,
       Act.enaEnable :: Act.setDir (decide (0 < stepsToMove)) ::
         (List.replicate stepsToMove.natAbs Act.stepPulse ++ [Act.enaDisable]),
       MoveReport.moved currentPosition targetPosition)
    else
      (currentPosition, [], MoveReport.alreadyAt)

/-- Claim C1, counterexample.  The claim states that an unrecognized mode
string leaves the applied Mode unchanged; in rev 1 the unrecognized
string "xyz" falls through with `new_mode = MODE_NONE`, which differs
from the current mode Spindle, so the applied Mode is overwritten with
None rather than left unchanged. -/
theorem C1_unrecognized_changes_mode :
    (mks_i2c_process_json
        (ParseResult.ok [("mode", JsonValue.str "xyz")])
        { mks_machine_mode := MachineMode.spindle
          last_json_report_time := 0
          mode_change_time := 0
          throttled_reporting_active := false
          last_json_content := "" }).1.mks_machine_mode
      ≠ MachineMode.spindle := by
  decide

/-- Claim C1 (amended): processing a payload whose document is
`{"mode": m}` always leaves the applied Mode equal to the prefix-match
decoding of `m` — Spindle/Laser/Drawing/None for the recognized prefixes
and None (the fall-through default) for every unrecognized string — and
when that decoding equals the current mode the whole relay state is
unchanged. -/
theorem C1_mode_parse_amended (m : String) (s : RelayState) :
    (mks_i2c_process_json (ParseResult.ok [("mode", JsonValue.str m)]) s).1.mks_machine_mode
        = (if strncmp_matches "spindle" m then MachineMode.spindle
           else if strncmp_matches "laser" m then MachineMode.laser
           else if strncmp_matches "drawing" m then MachineMode.drawing
           else MachineMode.none)
      ∧ (parseModeName m = s.mks_machine_mode →
          (mks_i2c_process_json (ParseResult.ok [("mode", JsonValue.str m)]) s).1 = s) := by
  have hkey : containsKey [("mode", JsonValue.str m)] "mode" = true := rfl
  have hget : getString [("mode", JsonValue.str m)] "mode" = some m := rfl
  have hname : parseModeName m
      = (if strncmp_matches "spindle" m then MachineMode.spindle
         else if strncmp_matches "laser" m then MachineMode.laser
         else if strncmp_matches "drawing" m then MachineMode.drawing
         else MachineMode.none) := by
    unfold parseModeName
    by_cases h1 : strncmp_matches "spindle" m = true <;>
      by_cases h2 : strncmp_matches "laser" m = true <;>
        by_cases h3 : strncmp_matches "drawing" m = true <;>
          by_cases h4 : strncmp_matches "none" m = true <;>
            simp [h1, h2, h3, h4]
  constructor
  · rw [← hname]
    by_cases h : s.mks_machine_mode = parseModeName m
    · simp [mks_i2c_process_json, hkey, hget, h]
    · simp [mks_i2c_process_json, hkey, hget, h]
  · intro h
    simp [mks_i2c_process_json, hkey, hget, h.symm]

/-- Claim C1 witness: instantiation of the amended theorem at the payload
`{"mode":"none"}` against the initial state (mode None), where the
decoded mode equals the current one and the state is unchanged. -/
theorem C1_mode_parse_amended_witness :
    (mks_i2c_process_json
        (ParseResult.ok [("mode", JsonValue.str "none")]) relayInit).1 = relayInit :=
  (C1_mode_parse_amended "none" relayInit).2 (by decide)

/-- Claim C2, counterexample.  Under the nominal 100 ms poll schedule,
one non-mode-changing triggering payload produces eleven emissions (the
immediate one at time 0 plus re-emissions at 500..5000, since the window
test is `<= JSON_REPORT_DURATION`), not the claimed ten in total. -/
theorem C2_emission_count_not_ten :
    (jsonFwdTimes c2Run.2).length ≠ 10 := by decide

/-- Claim C2 (amended): in the same scenario the payload is emitted
exactly eleven times, at times 0, 500, ..., 5000 (consecutive emissions
500 time units apart), the window is inactive after the run, and any
further iteration with no incoming data emits nothing and leaves the
state unchanged. -/
theorem C2_throttle_amended :
    jsonFwdTimes c2Run.2
        = [0, 500, 1000, 1500, 2000, 2500, 3000, 3500, 4000, 4500, 5000]
      ∧ c2Run.1.throttled_reporting_active = false
      ∧ ∀ t, mks_i2c_poll_iter t PollInput.noInput c2Run.1 = (c2Run.1, []) := by
  refine ⟨by decide, by decide, ?_⟩
  intro t
  have h : c2Run.1.throttled_reporting_active = false := by decide
  simp [mks_i2c_poll_iter, throttleTick, h]

/-- Claim C4, counterexample.  A syntactically malformed payload that
begins with a brace — the claim's own example `{"mode": }` — reaches the
ingest step, which stores it and activates a throttle window before the
parser ever runs, so processing it does alter ThrottleWindow state. -/
theorem C4_malformed_starts_window :
    (mks_i2c_poll_iter 0
        (PollInput.busJson "\x7b\"mode\": \x7d" ParseResult.err)
        relayInit).1.throttled_reporting_active
      ≠ relayInit.throttled_reporting_active := by decide

/-- Claim C4 (amended): the parse-and-apply step itself behaves as
claimed — on a malformed payload it emits exactly a parse-error report
and returns the relay state (applied Mode and all ThrottleWindow fields)
unchanged; it is the ingest preceding the parse that may store the
payload and open a throttle window, since a leading brace rather than
parser success gates ingestion. -/
theorem C4_parse_error_no_mutation (s : RelayState) :
    mks_i2c_process_json ParseResult.err s = (s, [Report.parseErr]) := rfl

/-- Claim C6: whenever processing a payload changes the applied Mode,
the same branch also clears `throttled_reporting_active`, ending any
active throttle window. -/
theorem C6_mode_change_ends_window (parsed : ParseResult) (s : RelayState)
    (h : (mks_i2c_process_json parsed s).1.mks_machine_mode ≠ s.mks_machine_mode) :
    (mks_i2c_process_json parsed s).1.throttled_reporting_active = false := by
  cases parsed with
  | err => exact absurd rfl h
  | ok doc =>
    unfold mks_i2c_process_json at h ⊢
    by_cases hkey : containsKey doc "mode" = true
    · simp [hkey] at h ⊢
      cases hget : getString doc "mode" with
      | none => simp [hget] at h
      | some m =>
        simp [hget] at h ⊢
        by_cases hdiff : s.mks_machine_mode = parseModeName m
        · simp [hdiff] at h
        · simp [hdiff]
    · simp [hkey] at h

/-- Claim C6 witness: a mode-change payload (`{"mode":"laser"}`) applied
to a state in mode None with an active throttle window leaves the window
deactivated. -/
theorem C6_mode_change_ends_window_witness :
    (mks_i2c_process_json
        (ParseResult.ok [("mode", JsonValue.str "laser")])
        { mks_machine_mode := MachineMode.none
          last_json_report_time := 100
          mode_change_time := 100
          throttled_reporting_active := true
          last_json_content := "x" }).1.throttled_reporting_active = false :=
  C6_mode_change_ends_window _ _ (by decide)

/-- Claim C7: `send_json_to_arduino` succeeds exactly when the payload
is present, non-empty and at most 32 bytes and the transport reported
status 0 having written every byte; and it emits a report on every
path. -/
theorem C7_send_result_iff (json : Option String) (wire : WireResult) :
    ((send_json_to_arduino json wire).1 = true
        ↔ ∃ j, json = some j ∧ j.length ≠ 0 ∧ j.length ≤ 32
            ∧ wire.status = 0 ∧ wire.bytesWritten = j.length)
      ∧ (send_json_to_arduino json wire).2 ≠ [] := by
  cases json with
  | none => simp [send_json_to_arduino]
  | some j =>
    constructor
    · simp only [send_json_to_arduino, Option.some.injEq]
      split_ifs with h1 h2
      · simp only [Bool.false_eq_true, false_iff]
        rintro ⟨j', hj, hne, hle, _, _⟩
        subst hj
        omega
      · simp only [true_iff]
        push_neg at h1
        exact ⟨j, rfl, h1.1, by omega, h2.1, h2.2⟩
      · simp only [Bool.false_eq_true, false_iff]
        rintro ⟨j', hj, _, _, hst, hbw⟩
        cases hj
        exact h2 ⟨hst, hbw⟩
    · simp only [send_json_to_arduino]
      split_ifs <;> simp

/-- Claim C3: for every name in the fixed position table, `moveToColor`
returns the table position as the new current position, and its action
trace is empty when the delta is zero and otherwise consists of exactly
an ENA enable, a DIR setting equal to the sign of the delta, `abs(delta)`
STEP pulses and an ENA disable; in particular, "magenta" from position 0
issues exactly 200 forward pulses and lands at 200, and repeating it
issues none. -/
theorem C3_moveTo_steps :
    (∀ c p, findColorPosition c ≠ -1 →
      moveToColor c p =
        (findColorPosition c,
         if findColorPosition c - p = 0 then []
         else Act.enaEnable :: Act.setDir (decide (0 < findColorPosition c - p)) ::
           (List.replicate (findColorPosition c - p).natAbs Act.stepPulse ++ [Act.enaDisable]),
         if findColorPosition c - p = 0 then MoveReport.alreadyAt
         else MoveReport.moved p (findColorPosition c)))
    ∧ moveToColor "magenta" 0
        = (200, Act.enaEnable :: Act.setDir true ::
            (List.replicate 200 Act.stepPulse ++ [Act.enaDisable]),
           MoveReport.moved 0 200)
    ∧ moveToColor "magenta" 200 = (200, [], MoveReport.alreadyAt) := by
  refine ⟨?_, ?_, ?_⟩
  · intro c p h
    by_cases hz : findColorPosition c - p = 0
    · have hpos : findColorPosition c = p := by omega
      have h' : p ≠ -1 := hpos ▸ h
      simp [moveToColor, h, h', hz, hpos]
    · simp [moveToColor, h, hz]
  · rfl
  · rfl

/-- Claim C3 witness: the table entry "yellow" from position 100 —
300 forward pulses bracketed by the enable window, ending at 400. -/
theorem C3_moveTo_steps_witness :
    moveToColor "yellow" 100
      = (400, Act.enaEnable :: Act.setDir true ::
          (List.replicate 300 Act.stepPulse ++ [Act.enaDisable]),
         MoveReport.moved 100 400) := by
  have h := C3_moveTo_steps.1 "yellow" 100 (by decide)
  exact h.trans rfl

/-- Claim C5: a name absent from the position table makes `moveToColor`
issue no actions, leave the current position unchanged, and report the
unknown target. -/
theorem C5_unknown_target (c : String) (p : Int)
    (h : findColorPosition c = -1) :
    moveToColor c p = (p, [], MoveReport.unknownColor) := by
  simp [moveToColor, h]

/-- Claim C5 witness: "purple" from position 123. -/
theorem C5_unknown_target_witness :
    moveToColor "purple" 123 = (123, [], MoveReport.unknownColor) :=
  C5_unknown_target "purple" 123 (by decide)

/-- Claim C8: the sampled mode is the highest-priority active input
under Spindle > Laser > Drawing and is None exactly when no input is
active; a sensor loop pass leaves the state untouched when the sample
equals the previous mode, and on a differing sample stores it and
re-encodes the exposed message. -/
theorem C8_sensor_priority_and_gate (sp la dr : Bool) (s : SensorState) :
    (sampleMode sp la dr = MachineMode.none ↔ sp = false ∧ la = false ∧ dr = false)
    ∧ (sp = true → sampleMode sp la dr = MachineMode.spindle)
    ∧ (sp = false → la = true → sampleMode sp la dr = MachineMode.laser)
    ∧ (sp = false → la = false → dr = true → sampleMode sp la dr = MachineMode.drawing)
    ∧ (s.modeChanged = false → sampleMode sp la dr = s.currentMode →
        sensorLoopTick sp la dr s = s)
    ∧ (sampleMode sp la dr ≠ s.currentMode →
        sensorLoopTick sp la dr s
          = { currentMode := sampleMode sp la dr
              modeChanged := false
              jsonBuffer := updateJsonBuffer (sampleMode sp la dr) }) := by
  refine ⟨?_, ?_, ?_, ?_, ?_, ?_⟩
  · cases sp <;> cases la <;> cases dr <;> simp [sampleMode]
  · intro h; subst h; simp [sampleMode]
  · intro h1 h2; subst h1; subst h2; simp [sampleMode]
  · intro h1 h2 h3; subst h1; subst h2; subst h3; simp [sampleMode]
  · intro h1 h2
    simp [sensorLoopTick, checkModePins, h2, h1]
  · intro h
    simp [sensorLoopTick, checkModePins, h]

/-- Claim C8 witness: with Spindle and Laser both active and previous
mode None, the pass selects Spindle (priority) and re-encodes the
message. -/
theorem C8_sensor_priority_and_gate_witness :
    sensorLoopTick true true false
        { currentMode := MachineMode.none, modeChanged := false, jsonBuffer := "" }
      = { currentMode := MachineMode.spindle
          modeChanged := false
          jsonBuffer := updateJsonBuffer MachineMode.spindle } :=
  (C8_sensor_priority_and_gate true true false _).2.2.2.2.2 (by decide)

/-- Claim C9: a payload with a `gcode` field forwards exactly the first
255 characters of the text to the executor (all of it when it is at most
255 long), the forwarded line always fits the null-terminated 256-byte
buffer (length at most 255), a non-Ok executor status yields an error
report, and the applied mode is untouched. -/
theorem C9_gcode_truncation (g : String) (exec : String → GcStatus)
    (m : MachineMode) :
    (mks_i2c_process_json_v2 (ParseResult.ok [("gcode", JsonValue.str g)]) exec m).2.1
        = some (strncpy_take 255 g)
    ∧ (strncpy_take 255 g).length ≤ 255
    ∧ (g.length ≤ 255 → strncpy_take 255 g = g)
    ∧ (exec (strncpy_take 255 g) ≠ GcStatus.ok →
        Report.gcodeErr ∈
          (mks_i2c_process_json_v2 (ParseResult.ok [("gcode", JsonValue.str g)]) exec m).2.2)
    ∧ (mks_i2c_process_json_v2 (ParseResult.ok [("gcode", JsonValue.str g)]) exec m).1 = m := by
  refine ⟨rfl, ?_, ?_, ?_, rfl⟩
  · show (g.toList.take 255).length ≤ 255
    have := List.length_take 255 g.toList
    omega
  · intro h
    have hlist : g.toList.length ≤ 255 := h
    show String.mk (g.toList.take 255) = g
    rw [List.take_of_length_le hlist]
    cases g
    rfl
  · intro h
    have hrep : (mks_i2c_process_json_v2
          (ParseResult.ok [("gcode", JsonValue.str g)]) exec m).2.2
        = if exec (strncpy_take 255 g) ≠ GcStatus.ok
          then [Report.gcodeErr] else [] := rfl
    rw [hrep, if_pos h]
    exact List.mem_singleton.mpr rfl

/-- Claim C2 witness: an instantiation of the post-window conjunct at the
concrete time 7000 — a later idle iteration emits nothing. -/
theorem C2_throttle_amended_witness :
    mks_i2c_poll_iter 7000 PollInput.noInput c2Run.1 = (c2Run.1, []) :=
  C2_throttle_amended.2.2 7000

/-- Claim C4 witness: the parse step applied to the initial state. -/
theorem C4_parse_error_no_mutation_witness :
    mks_i2c_process_json ParseResult.err relayInit = (relayInit, [Report.parseErr]) :=
  C4_parse_error_no_mutation relayInit

/-- Claim C7 witness: a 2-byte payload fully written with status 0 is
reported as sent. -/
theorem C7_send_result_iff_witness :
    (send_json_to_arduino (some "hi") { bytesWritten := 2, status := 0 }).1 = true :=
  (C7_send_result_iff (some "hi") { bytesWritten := 2, status := 0 }).1.mpr
    ⟨"hi", rfl, by decide, by decide, rfl, by decide⟩

/-- Claim C9 witness: a short gcode line is forwarded verbatim and a
failing executor produces an error report. -/
theorem C9_gcode_truncation_witness :
    strncpy_take 255 "G1 X0" = "G1 X0"
    ∧ Report.gcodeErr ∈ (mks_i2c_process_json_v2
        (ParseResult.ok [("gcode", JsonValue.str "G1 X0")])
        (fun _ => GcStatus.fail 20) MachineMode.none).2.2 :=
  ⟨(C9_gcode_truncation "G1 X0" (fun _ => GcStatus.fail 20) MachineMode.none).2.2.1
      (by decide),
   (C9_gcode_truncation "G1 X0" (fun _ => GcStatus.fail 20) MachineMode.none).2.2.2.1
      (by decide)⟩
